import Mathlib

/-!
Verification of the personal-portfolio server against its specification.

The development shallowly embeds the server-side logic of the repository:
the credential service (`hashPassword` / `comparePasswords` from the auth
module), the two storage variants (`V1` mirrors `server/storage.ts` with the
`shared/schema.ts` tables; `V2` mirrors the second `DatabaseStorage` variant
with the portfolio-info / technology-child-row tables), and the route
handlers the claims reference.  JavaScript strings that undergo character
surgery are modelled as `List Char`; machine-level concerns (actual SQL,
actual scrypt) are external collaborators and appear as parameters.
-/

/-- JavaScript strings, modelled as lists of characters where the code
inspects or splits their contents. -/
abbrev JStr := List Char

/-- Lower-case hex digit for a nibble, as produced by Node
`Buffer.toString("hex")` (0-9 then a-f). -/
def hexDigitChar (n : Nat) : Char :=
  if n < 10 then Char.ofNat (48 + n) else Char.ofNat (87 + n)

/-- Hex encoding of a byte list, two lower-case digits per byte, mirroring
`buf.toString("hex")`. -/
def hexEncode : List Nat → List Char
  | [] => []
  | b :: bs => hexDigitChar (b / 16) :: hexDigitChar (b % 16) :: hexEncode bs

/-- Value of one hex digit, accepting both cases like Node does. -/
def hexDigitVal (c : Char) : Option Nat :=
  if 48 ≤ c.toNat ∧ c.toNat ≤ 57 then some (c.toNat - 48)
  else if 97 ≤ c.toNat ∧ c.toNat ≤ 102 then some (c.toNat - 87)
  else if 65 ≤ c.toNat ∧ c.toNat ≤ 70 then some (c.toNat - 55)
  else none

/-- Hex decoding with Node `Buffer.from(s, "hex")` semantics: bytes are read
two digits at a time and parsing stops silently at the first invalid or
incomplete pair. -/
def hexDecode : List Char → List Nat
  | c1 :: c2 :: rest =>
    match hexDigitVal c1, hexDigitVal c2 with
    | some hi, some lo => (16 * hi + lo) :: hexDecode rest
    | _, _ => []
  | _ => []

/-- JavaScript `String.prototype.split` with a one-character separator:
every occurrence separates, and the result is never empty. -/
def splitOnChar (sep : Char) : List Char → List (List Char)
  | [] => [[]]
  | c :: rest =>
    match splitOnChar sep rest with
    | [] => [[]]
    | g :: gs => if c = sep then [] :: g :: gs else (c :: g) :: gs

/-- Signature of the external key-derivation collaborator: Node
`scrypt(password, salt, 64)` seen as a function from password and salt to a
64-byte derived key.  The auth module always requests a 64-byte key. -/
abbrev Kdf := JStr → JStr → List Nat

/-- Translation of `hashPassword` from the auth module: derive a 64-byte key
from the password and a random hex salt and return
`derivedKeyHex ++ "." ++ salt`.  The randomly drawn salt is an input here
because randomness is external. -/
def hashPassword (kdf : Kdf) (salt : JStr) (password : JStr) : JStr :=
  hexEncode (kdf password salt) ++ '.' :: salt

/-- Translation of `comparePasswords` from the auth module.  The stored form
is split on every dot and the first two parts are taken, exactly like the
destructuring `const [hashed, salt] = stored.split(".")`.  A stored form
with no dot leaves the salt undefined, which makes the `scrypt` call throw;
decoded derived keys whose byte length differs from the freshly derived key
make `timingSafeEqual` throw.  Both throws surface as `Except.error`. -/
def comparePasswords (kdf : Kdf) (supplied stored : JStr) : Except String Bool :=
  match splitOnChar '.' stored with
  | [] => Except.error "unreachable: split always yields at least one part"
  | [_] => Except.error "TypeError: the salt argument is undefined"
  | hashed :: salt :: _ =>
    let hashedBuf := hexDecode hashed
    let suppliedBuf := kdf supplied salt
    if hashedBuf.length = suppliedBuf.length then
      Except.ok (decide (hashedBuf = suppliedBuf))
    else
      Except.error "RangeError: input buffers must have the same byte length"

/-- JSON values as they appear in route responses. -/
inductive Jval
  | str (s : String)
  | num (n : Nat)
  | boolVal (b : Bool)
  | nullVal
deriving Repr, DecidableEq

/-- HTTP response: a status code and a JSON object body given as an ordered
field list. -/
structure HttpResponse where
  status : Nat
  body : List (String × Jval)
deriving Repr, DecidableEq

/-- Outcome of an authorization gate middleware: either a rejection response
or fall-through to the guarded handler. -/
inductive GateResult
  | reject (status : Nat) (message : String)
  | pass
deriving Repr, DecidableEq

namespace V1

/-- Row of the `users` table from `shared/schema.ts`. -/
structure User where
  id : Nat
  username : String
  password : String
  email : String
  isAdmin : Bool
deriving Repr, DecidableEq

/-- Row of the singleton `site_config` table. -/
structure SiteConfig where
  id : Nat
  siteName : String
  setupKey : String
  primaryColor : String
  metaDescription : Option String
  createdAt : Nat
  updatedAt : Nat
deriving Repr, DecidableEq

/-- Row of the singleton `hero` table. -/
structure Hero where
  id : Nat
  greeting : String
  name : String
  tagline : String
  createdAt : Nat
  updatedAt : Nat
deriving Repr, DecidableEq

/-- Entry of the jsonb `details` column of `about`. -/
structure Detail where
  icon : String
  label : String
  value : String
deriving Repr, DecidableEq

/-- Entry of the jsonb `social_links` columns. -/
structure SocialLink where
  platform : String
  url : String
  icon : String
deriving Repr, DecidableEq

/-- Row of the singleton `about` table. -/
structure About where
  id : Nat
  bio : String
  additionalInfo : Option String
  profileImage : Option String
  details : Option (List Detail)
  socialLinks : Option (List SocialLink)
  createdAt : Nat
  updatedAt : Nat
deriving Repr, DecidableEq

/-- Row of the singleton `contact_info` table. -/
structure ContactInfo where
  id : Nat
  description : Option String
  email : Option String
  phone : Option String
  location : Option String
  socialLinks : Option (List SocialLink)
  createdAt : Nat
  updatedAt : Nat
deriving Repr, DecidableEq

/-- Row of the `contact_messages` table. -/
structure ContactMessage where
  id : Nat
  name : String
  email : String
  subject : String
  message : String
  createdAt : Nat
  read : Bool
deriving Repr, DecidableEq

/-- Relational store behind the first `DatabaseStorage` variant, restricted
to the tables the claims touch.  Serial id counters are explicit, and `now`
stands for the database clock used for the timestamp defaults. -/
structure Store where
  users : List User
  siteConfig : List SiteConfig
  hero : List Hero
  about : List About
  contactInfo : List ContactInfo
  contactMessages : List ContactMessage
  nextUserId : Nat
  nextHeroId : Nat
  nextAboutId : Nat
  nextContactInfoId : Nat
  nextMessageId : Nat
  now : Nat
deriving Repr, DecidableEq

/-- Input validated by `insertContactMessageSchema`: the four required
string fields. -/
structure InsertContactMessage where
  name : String
  email : String
  subject : String
  message : String
deriving Repr, DecidableEq

/-- Partial input of `updateSiteConfig` (`Partial<InsertSiteConfig>`). -/
structure PartialInsertSiteConfig where
  siteName : Option String
  setupKey : Option String
  primaryColor : Option String
  metaDescription : Option (Option String)
deriving Repr, DecidableEq

/-- Partial input of `updateHero` (`Partial<InsertHero>`). -/
structure PartialInsertHero where
  greeting : Option String
  name : Option String
  tagline : Option String
deriving Repr, DecidableEq

/-- Translation of `DatabaseStorage.getUser`: first row whose id matches. -/
def getUser (id : Nat) (s : Store) : Option User :=
  s.users.find? (fun u => u.id = id)

/-- Translation of `DatabaseStorage.getUserByUsername`. -/
def getUserByUsername (username : String) (s : Store) : Option User :=
  s.users.find? (fun u => u.username = username)

/-- Translation of `DatabaseStorage.getUserByEmail`. -/
def getUserByEmail (email : String) (s : Store) : Option User :=
  s.users.find? (fun u => u.email = email)

/-- Translation of `DatabaseStorage.createUser`: insert with a fresh serial id. -/
def createUser (username email password : String) (isAdmin : Bool) (s : Store) :
    User × Store :=
  let u : User :=
    { id := s.nextUserId, username := username, password := password,
      email := email, isAdmin := isAdmin }
  (u, { s with users := s.users ++ [u], nextUserId := s.nextUserId + 1 })

/-- Translation of `DatabaseStorage.checkAdminExists`: true iff a row with `isAdmin` set
exists. -/
def checkAdminExists (s : Store) : Bool :=
  (s.users.find? (fun u => u.isAdmin)).isSome

/-- Translation of `DatabaseStorage.getSiteConfig`: bare select of the first row; this read
does NOT lazily create anything. -/
def getSiteConfig (s : Store) : Option SiteConfig :=
  s.siteConfig.head?

/-- Translation of `DatabaseStorage.createSiteConfig`. -/
def createSiteConfig (siteName setupKey primaryColor : String)
    (metaDescription : Option String) (s : Store) : SiteConfig × Store :=
  let c : SiteConfig :=
    { id := 1, siteName := siteName, setupKey := setupKey,
      primaryColor := primaryColor, metaDescription := metaDescription,
      createdAt := s.now, updatedAt := s.now }
  (c, { s with siteConfig := s.siteConfig ++ [c] })

/-- Translation of `DatabaseStorage.updateSiteConfig`: throws "Site configuration not
found" when the table is empty; otherwise patches the existing row and
bumps `updatedAt`. -/
def updateSiteConfig (patch : PartialInsertSiteConfig) (s : Store) :
    Except String (SiteConfig × Store) :=
  match s.siteConfig.head? with
  | none => Except.error "Site configuration not found"
  | some existingConfig =>
    let updated : SiteConfig :=
      { existingConfig with
        siteName := patch.siteName.getD existingConfig.siteName,
        setupKey := patch.setupKey.getD existingConfig.setupKey,
        primaryColor := patch.primaryColor.getD existingConfig.primaryColor,
        metaDescription := patch.metaDescription.getD existingConfig.metaDescription,
        updatedAt := s.now }
    Except.ok (updated,
      { s with siteConfig :=
          s.siteConfig.map (fun c => if c.id = existingConfig.id then updated else c) })

/-- Translation of `DatabaseStorage.createHero`. -/
def createHero (greeting name tagline : String) (s : Store) : Hero × Store :=
  let h : Hero :=
    { id := s.nextHeroId, greeting := greeting, name := name, tagline := tagline,
      createdAt := s.now, updatedAt := s.now }
  (h, { s with hero := s.hero ++ [h], nextHeroId := s.nextHeroId + 1 })

/-- Translation of `DatabaseStorage.getHero`: returns the existing row, or lazily creates
the hard-coded default row when the table is empty. -/
def getHero (s : Store) : Hero × Store :=
  match s.hero.head? with
  | some heroData => (heroData, s)
  | none => createHero "Hello, I\x27m" "John Doe" "Full Stack Developer & UI/UX Designer" s

/-- Translation of `DatabaseStorage.updateHero`.  The source first calls `getHero` (which
lazily creates the default row) and only then guards
`if (!existingHero) throw`; since `getHero` always produces a row, the
not-found throw is unreachable and the update always succeeds. -/
def updateHero (patch : PartialInsertHero) (s : Store) :
    Except String (Hero × Store) :=
  let gh := getHero s
  let existingHero := gh.1
  let s1 := gh.2
  let updated : Hero :=
    { existingHero with
      greeting := patch.greeting.getD existingHero.greeting,
      name := patch.name.getD existingHero.name,
      tagline := patch.tagline.getD existingHero.tagline,
      updatedAt := s1.now }
  Except.ok (updated,
    { s1 with hero := s1.hero.map (fun h => if h.id = existingHero.id then updated else h) })

/-- Translation of `DatabaseStorage.createAbout`. -/
def createAbout (bio : String) (additionalInfo profileImage : Option String)
    (details : Option (List Detail)) (socialLinks : Option (List SocialLink))
    (s : Store) : About × Store :=
  let a : About :=
    { id := s.nextAboutId, bio := bio, additionalInfo := additionalInfo,
      profileImage := profileImage, details := details, socialLinks := socialLinks,
      createdAt := s.now, updatedAt := s.now }
  (a, { s with about := s.about ++ [a], nextAboutId := s.nextAboutId + 1 })

/-- Default `about` row created lazily by `getAbout`. -/
def defaultAboutArgs : String × Option String × Option String ×
    Option (List Detail) × Option (List SocialLink) :=
  ("I\x27m a passionate developer with experience building web applications.",
   some "When I\x27m not coding, I enjoy exploring new technologies.",
   some "https://images.unsplash.com/photo-1507003211169-0a1dd7228f2d?ixlib=rb-1.2.1&auto=format&fit=crop&w=668&q=80",
   some [{ icon := "envelope", label := "Email", value := "contact@example.com" },
         { icon := "map-marker-alt", label := "Location", value := "San Francisco, CA" }],
   some [{ platform := "twitter", url := "https://twitter.com", icon := "twitter" },
         { platform := "linkedin", url := "https://linkedin.com", icon := "linkedin" },
         { platform := "github", url := "https://github.com", icon := "github" }])

/-- Translation of `DatabaseStorage.getAbout`: lazily creates the default row when the
table is empty. -/
def getAbout (s : Store) : About × Store :=
  match s.about.head? with
  | some aboutData => (aboutData, s)
  | none =>
    createAbout defaultAboutArgs.1 defaultAboutArgs.2.1 defaultAboutArgs.2.2.1
      defaultAboutArgs.2.2.2.1 defaultAboutArgs.2.2.2.2 s

/-- Translation of `DatabaseStorage.createContactInfo`. -/
def createContactInfo (description email phone location : Option String)
    (socialLinks : Option (List SocialLink)) (s : Store) : ContactInfo × Store :=
  let i : ContactInfo :=
    { id := s.nextContactInfoId, description := description, email := email,
      phone := phone, location := location, socialLinks := socialLinks,
      createdAt := s.now, updatedAt := s.now }
  (i, { s with contactInfo := s.contactInfo ++ [i], nextContactInfoId := s.nextContactInfoId + 1 })

/-- Translation of `DatabaseStorage.getContactInfo`: lazily creates the default row when
the table is empty. -/
def getContactInfo (s : Store) : ContactInfo × Store :=
  match s.contactInfo.head? with
  | some info => (info, s)
  | none =>
    createContactInfo
      (some "Have a project in mind or just want to say hello? Feel free to reach out!")
      (some "contact@example.com") (some "(123) 456-7890") (some "San Francisco, CA")
      (some [{ platform := "twitter", url := "https://twitter.com", icon := "twitter" },
             { platform := "linkedin", url := "https://linkedin.com", icon := "linkedin" },
             { platform := "github", url := "https://github.com", icon := "github" },
             { platform := "instagram", url := "https://instagram.com", icon := "instagram" }])
      s

/-- Translation of `DatabaseStorage.createContactMessage`: insert with the `read` column
defaulting to false and `created_at` defaulting to the clock. -/
def createContactMessage (m : InsertContactMessage) (s : Store) :
    ContactMessage × Store :=
  let newMessage : ContactMessage :=
    { id := s.nextMessageId, name := m.name, email := m.email,
      subject := m.subject, message := m.message, createdAt := s.now, read := false }
  (newMessage,
   { s with contactMessages := s.contactMessages ++ [newMessage], nextMessageId := s.nextMessageId + 1 })

/-- Translation of `DatabaseStorage.markContactMessageAsRead`: update `read := true` on
every row whose id matches and return the first updated row (none when no
row matched). -/
def markContactMessageAsRead (id : Nat) (s : Store) :
    Option ContactMessage × Store :=
  let updatedRows :=
    s.contactMessages.map (fun m => if m.id = id then { m with read := true } else m)
  (updatedRows.find? (fun m => m.id = id),
   { s with contactMessages := updatedRows })

/-- Result object of the variant-1 `sendEmail` collaborator
(`server/email.ts`): it never throws, it returns a success flag and an
optional error message. -/
structure EmailResult where
  success : Bool
  error : Option String
deriving Repr, DecidableEq

/-- Translation of the `checkAdmin` middleware from the variant-1 routes
module.  The request identity is the optional session user: `none` models
`!req.isAuthenticated()`. -/
def checkAdmin (user : Option User) : GateResult :=
  match user with
  | none => GateResult.reject 401 "Not authenticated"
  | some u =>
    if !u.isAdmin then GateResult.reject 403 "Access denied"
    else GateResult.pass

/-- JSON serialization of a `site_config` row, fields in declared column
order. -/
def siteConfigJson (c : SiteConfig) : List (String × Jval) :=
  [("id", Jval.num c.id),
   ("siteName", Jval.str c.siteName),
   ("setupKey", Jval.str c.setupKey),
   ("primaryColor", Jval.str c.primaryColor),
   ("metaDescription", match c.metaDescription with
      | some d => Jval.str d
      | none => Jval.nullVal),
   ("createdAt", Jval.num c.createdAt),
   ("updatedAt", Jval.num c.updatedAt)]

/-- Translation of the public `GET /api/site-config` handler: 404 when the
singleton row is absent, otherwise the row serialized WITHOUT its
`setupKey` field (the rest-destructuring drops exactly that key). -/
def getSiteConfigRoute (s : Store) : HttpResponse :=
  match getSiteConfig s with
  | none => { status := 404, body := [("message", Jval.str "Site configuration not found")] }
  | some config =>
    { status := 200, body := (siteConfigJson config).filter (fun kv => kv.1 ≠ "setupKey") }

/-- Translation of the public `POST /api/contact` handler (variant 1).  The
validated message is persisted first; then contact info is fetched (lazily
created if absent) and, when it carries a truthy email address, the
notification is sent.  `sendEmail` returns an `EmailResult` and never
throws, so every branch falls through to the 201 response and the email
outcome is ignored. -/
def postContact (input : InsertContactMessage) (emailResult : EmailResult)
    (s : Store) : HttpResponse × Store :=
  let created := createContactMessage input s
  let infoSt := getContactInfo created.2
  let resp : HttpResponse :=
    { status := 201, body := [("message", Jval.str "Message sent successfully")] }
  match infoSt.1.email with
  | none => (resp, infoSt.2)
  | some e =>
    if e = "" then (resp, infoSt.2)
    else
      match emailResult.success with
      | true => (resp, infoSt.2)
      | false => (resp, infoSt.2)

/-- Body of a `POST /api/register` request.  `isAdmin` models the
truthiness coercion `!!req.body.isAdmin`; `setupKey` is `none` when the
field is absent from the body. -/
structure RegisterRequest where
  username : String
  email : String
  password : String
  isAdmin : Bool
  setupKey : Option String
deriving Repr, DecidableEq

/-- Outcome of the register handler. -/
inductive RegisterResult
  | badRequest (message : String)
  | forbidden (message : String)
  | created (user : User)
deriving Repr, DecidableEq

/-- Translation of the `POST /api/register` handler from the auth module.
Duplicate username/email are rejected first; an admin registration then
requires a configured site and a truthy setup key equal to the stored one,
while a non-admin registration requires that some admin already exists.
`hash` stands for `hashPassword` applied to the request password (salt
drawing is external). -/
def registerRoute (hash : String → String) (req : RegisterRequest) (s : Store) :
    RegisterResult × Store :=
  if (getUserByUsername req.username s).isSome then
    (RegisterResult.badRequest "Username already exists", s)
  else if (getUserByEmail req.email s).isSome then
    (RegisterResult.badRequest "Email already exists", s)
  else
    let isCreatingAdmin := req.isAdmin
    if isCreatingAdmin then
      match getSiteConfig s with
      | none => (RegisterResult.badRequest "Site not configured properly", s)
      | some config =>
        -- `!setupKey || setupKey !== config.setupKey`: an absent or empty
        -- supplied key is falsy and rejected outright
        match req.setupKey with
        | none => (RegisterResult.forbidden "Invalid setup key", s)
        | some k =>
          if k = "" ∨ k ≠ config.setupKey then
            (RegisterResult.forbidden "Invalid setup key", s)
          else
            let cu := createUser req.username req.email (hash req.password) isCreatingAdmin s
            (RegisterResult.created cu.1, cu.2)
    else
      if !(checkAdminExists s) then
        (RegisterResult.badRequest "Please create an admin account first", s)
      else
        let cu := createUser req.username req.email (hash req.password) isCreatingAdmin s
        (RegisterResult.created cu.1, cu.2)

end V1

namespace V2

/-- Row of the variant-2 `users` table. -/
structure User where
  id : Nat
  username : String
  password : String
  isAdmin : Bool
deriving Repr, DecidableEq

/-- Modelled from the spec: the variant-2 `shared/schema.ts` is not under
src/ (only its storage layer and routes are), so the PortfolioInfo
singleton is taken from the PortfolioInfo entity of the spec: it carries
the contact email of the owner (read by the contact route) plus further scalar
content columns, collapsed here into `otherFields` because no claim reads
them. -/
structure PortfolioInfo where
  id : Nat
  contactEmail : String
  otherFields : String
  updatedAt : Nat
deriving Repr, DecidableEq

/-- Insert shape for `updatePortfolioInfo`. -/
structure InsertPortfolioInfo where
  contactEmail : String
  otherFields : String
deriving Repr, DecidableEq

/-- Modelled from the spec: the variant-2 experiences table (schema file
absent from src/); a dated collection entity with an `order` column (the
storage layer sorts by it) whose remaining scalar columns are collapsed
into `otherFields` because the claims only concern its technology child
rows. -/
structure Experience where
  id : Nat
  otherFields : String
  order : Nat
  updatedAt : Nat
deriving Repr, DecidableEq

/-- Insert shape validated by `insertExperienceSchema` (variant 2). -/
structure InsertExperience where
  otherFields : String
  order : Nat
deriving Repr, DecidableEq

/-- Row of the variant-2 `experience_technologies` child table: id, parent
reference and technology name, as used by `createExperienceTechnology`. -/
structure ExperienceTechnology where
  id : Nat
  experienceId : Nat
  name : String
deriving Repr, DecidableEq

/-- Relational store behind the second `DatabaseStorage` variant,
restricted to the tables the claims touch.  Note that this variant has no
contact-messages table at all. -/
structure Store where
  users : List User
  portfolioInfo : List PortfolioInfo
  experiences : List Experience
  experienceTechnologies : List ExperienceTechnology
  nextPortfolioInfoId : Nat
  nextTechId : Nat
  now : Nat
deriving Repr, DecidableEq

/-- Translation of the variant-2 `isAdmin` middleware: a single combined
check `!req.isAuthenticated() || !req.user.isAdmin` that answers 403 in
both cases. -/
def isAdmin (user : Option User) : GateResult :=
  match user with
  | none => GateResult.reject 403 "Unauthorized: Admin access required"
  | some u =>
    if !u.isAdmin then GateResult.reject 403 "Unauthorized: Admin access required"
    else GateResult.pass

/-- Variant-2 `DatabaseStorage.getPortfolioInfo`: bare select of the first
row; this read does NOT lazily create anything. -/
def getPortfolioInfo (s : Store) : Option PortfolioInfo :=
  s.portfolioInfo.head?

/-- Variant-2 `DatabaseStorage.updatePortfolioInfo`: updates the existing
singleton row when present, otherwise INSERTS the supplied data (an upsert,
not a loud failure). -/
def updatePortfolioInfo (info : InsertPortfolioInfo) (s : Store) :
    PortfolioInfo × Store :=
  match getPortfolioInfo s with
  | some existing =>
    let updated : PortfolioInfo :=
      { existing with
        contactEmail := info.contactEmail,
        otherFields := info.otherFields,
        updatedAt := s.now }
    (updated,
     { s with portfolioInfo :=
         s.portfolioInfo.map (fun p => if p.id = existing.id then updated else p) })
  | none =>
    let created : PortfolioInfo :=
      { id := s.nextPortfolioInfoId, contactEmail := info.contactEmail,
        otherFields := info.otherFields, updatedAt := s.now }
    (created,
     { s with portfolioInfo := s.portfolioInfo ++ [created], nextPortfolioInfoId := s.nextPortfolioInfoId + 1 })

/-- Variant-2 `DatabaseStorage.updateExperience`: update the row whose id
matches and return it (none when absent). -/
def updateExperience (id : Nat) (e : InsertExperience) (s : Store) :
    Option Experience × Store :=
  let updatedRows := s.experiences.map (fun x =>
    if x.id = id then { x with otherFields := e.otherFields, order := e.order, updatedAt := s.now }
    else x)
  (updatedRows.find? (fun x => x.id = id), { s with experiences := updatedRows })

/-- Variant-2 `DatabaseStorage.createExperienceTechnology`: insert a child
row with a fresh serial id. -/
def createExperienceTechnology (experienceId : Nat) (name : String) (s : Store) :
    ExperienceTechnology × Store :=
  let t : ExperienceTechnology := { id := s.nextTechId, experienceId := experienceId, name := name }
  (t, { s with experienceTechnologies := s.experienceTechnologies ++ [t], nextTechId := s.nextTechId + 1 })

/-- Variant-2 `DatabaseStorage.deleteExperienceTechnologiesByExperienceId`:
delete every child row of the given parent. -/
def deleteExperienceTechnologiesByExperienceId (experienceId : Nat) (s : Store) : Store :=
  { s with experienceTechnologies :=
      s.experienceTechnologies.filter (fun t => !(t.experienceId = experienceId)) }

/-- Variant-2 `DatabaseStorage.getExperience`: the parent row joined with
its technology child rows. -/
def getExperience (id : Nat) (s : Store) :
    Option (Experience × List ExperienceTechnology) :=
  match s.experiences.find? (fun x => x.id = id) with
  | none => none
  | some exp => some (exp, s.experienceTechnologies.filter (fun t => t.experienceId = id))

/-- Sequential insertion of the technology names of a request, one
`createExperienceTechnology` per name, exactly like the for-of loop
over `technologies` in the handler. -/
def createExperienceTechnologiesLoop (experienceId : Nat) (names : List String)
    (s : Store) : Store :=
  names.foldl (fun acc tech => (createExperienceTechnology experienceId tech acc).2) s

/-- Result of the variant-2 `PUT /api/experiences/:id` handler. -/
inductive PutExperienceResult
  | notFound
  | ok (result : Option (Experience × List ExperienceTechnology))
deriving Repr, DecidableEq

/-- Translation of the variant-2 `PUT /api/experiences/:id` handler: update
the parent (404 when absent); when a `technologies` value is present in the
body (`none` models an absent/undefined field, and note that an empty array
is truthy in JavaScript), delete ALL existing child rows of the parent and
reinsert the supplied names; finally return the joined row. -/
def putExperience (id : Nat) (data : InsertExperience)
    (technologies : Option (List String)) (s : Store) :
    PutExperienceResult × Store :=
  let upd := updateExperience id data s
  match upd.1 with
  | none => (PutExperienceResult.notFound, upd.2)
  | some _ =>
    let s2 :=
      match technologies with
      | none => upd.2
      | some techList =>
        createExperienceTechnologiesLoop id techList
          (deleteExperienceTechnologiesByExperienceId id upd.2)
    (PutExperienceResult.ok (getExperience id s2), s2)

/-- Body of the variant-2 public `POST /api/contact` route, already past
its zod validation (name/subject/message nonempty, email syntactically
valid). -/
structure ContactInput where
  name : String
  email : String
  subject : String
  message : String
deriving Repr, DecidableEq

/-- Translation of the variant-2 `POST /api/contact` handler: it persists
NOTHING (this schema variant has no contact-messages table); it only looks
up the owner email and forwards the message through `sendEmail`, answering
500 when portfolio info is missing or the send reports failure, 200
otherwise.  `emailSent` is the boolean returned by the external
`sendEmail`. -/
def postContact (_input : ContactInput) (emailSent : Bool) (s : Store) :
    Nat × Store :=
  match getPortfolioInfo s with
  | none => (500, s)
  | some _info =>
    if !emailSent then (500, s)
    else (200, s)

end V2

/-- Fresh technology child rows created by the reinsertion loop when the
serial counter starts at `base`. -/
def freshTechRows (experienceId base : Nat) : List String → List V2.ExperienceTechnology
  | [] => []
  | n :: ns =>
    { id := base, experienceId := experienceId, name := n } :: freshTechRows experienceId (base + 1) ns

/-- Same store with the stored setup key replaced everywhere: the second of
the two stores that "differ only in the stored setup key". -/
def setStoredSetupKey (k : String) (s : V1.Store) : V1.Store :=
  { s with siteConfig := s.siteConfig.map (fun c => { c with setupKey := k }) }

/-- Variant-1 store with every table empty (a fresh database). -/
def emptyStore1 : V1.Store :=
  { users := [], siteConfig := [], hero := [], about := [], contactInfo := [],
    contactMessages := [], nextUserId := 1, nextHeroId := 1, nextAboutId := 1,
    nextContactInfoId := 1, nextMessageId := 1, now := 0 }

/-- Variant-2 store with every table empty (a fresh database). -/
def emptyStore2 : V2.Store :=
  { users := [], portfolioInfo := [], experiences := [], experienceTechnologies := [],
    nextPortfolioInfoId := 1, nextTechId := 1, now := 0 }

/-- Variant-2 store whose portfolio info is configured, used to run the
variant-2 contact route on a concrete input. -/
def v2SampleStore : V2.Store :=
  { users := [],
    portfolioInfo := [{ id := 1, contactEmail := "owner@example.com", otherFields := "", updatedAt := 0 }],
    experiences := [], experienceTechnologies := [],
    nextPortfolioInfoId := 2, nextTechId := 1, now := 0 }

/-- Concrete contact submission whose four fields pass validation. -/
def sampleContactInput : V2.ContactInput :=
  { name := "Ada", email := "ada@example.com", subject := "Hi", message := "Hello there" }

/-- Concrete registration request without admin intent. -/
def c2NonAdminReq : V1.RegisterRequest :=
  { username := "visitor", email := "v@example.com", password := "pw1", isAdmin := false, setupKey := none }

/-- Concrete registration request with admin intent and the stored key. -/
def c2AdminReq : V1.RegisterRequest :=
  { username := "admin1", email := "a@example.com", password := "secret1", isAdmin := true, setupKey := some "changeme" }

/-- Fresh store whose site config is already in place (as the route
registration creates it at startup) but with no users yet. -/
def c2FreshStore : V1.Store :=
  { emptyStore1 with
    siteConfig := [{ id := 1, siteName := "Portfolio", setupKey := "changeme",
                     primaryColor := "hsl(222.2 47.4% 11.2%)",
                     metaDescription := some "Professional Portfolio Website",
                     createdAt := 0, updatedAt := 0 }] }

/-- User row produced by the successful concrete admin registration. -/
def c2CreatedUser : V1.User :=
  { id := 1, username := "admin1", password := "secret1", email := "a@example.com", isAdmin := true }

/-- Arbitrary user used to instantiate rejection statements. -/
def c2SomeUser : V1.User :=
  { id := 9, username := "x", password := "x", email := "x@x", isAdmin := false }

/-- Non-admin variant-1 user. -/
def plainUser1 : V1.User :=
  { id := 2, username := "user", password := "h", email := "user@example.com", isAdmin := false }

/-- Admin variant-1 user. -/
def adminUser1 : V1.User :=
  { id := 1, username := "root", password := "h", email := "root@example.com", isAdmin := true }

/-- Non-admin variant-2 user. -/
def plainUser2 : V2.User :=
  { id := 2, username := "user", password := "h", isAdmin := false }

/-- Empty site-config patch. -/
def sitePatch0 : V1.PartialInsertSiteConfig :=
  { siteName := none, setupKey := none, primaryColor := none, metaDescription := none }

/-- Empty hero patch. -/
def heroPatch0 : V1.PartialInsertHero :=
  { greeting := none, name := none, tagline := none }

/-- Concrete portfolio-info payload. -/
def portfolioInsert0 : V2.InsertPortfolioInfo :=
  { contactEmail := "owner@example.com", otherFields := "bio" }

/-- Concrete key-derivation function used to instantiate the parametric
credential theorems: 64 bytes whose first byte depends on the password
length. -/
def kdfDemo : Kdf := fun q _ => (q.length % 256) :: List.replicate 63 0

/-- Concrete two-character salt with no dot. -/
def c3Salt : JStr := ['a', 'b']

/-- Store holding two unread contact messages. -/
def c10Store : V1.Store :=
  { emptyStore1 with
    contactMessages :=
      [{ id := 1, name := "Ada", email := "ada@example.com", subject := "Hi",
         message := "Hello", createdAt := 5, read := false },
       { id := 2, name := "Bob", email := "bob@example.com", subject := "Yo",
         message := "Howdy", createdAt := 6, read := false }],
    nextMessageId := 3 }

/-- First message of `c10Store`. -/
def c10MsgA : V1.ContactMessage :=
  { id := 1, name := "Ada", email := "ada@example.com", subject := "Hi",
    message := "Hello", createdAt := 5, read := false }

/-- Variant-2 store holding one experience with no technologies yet. -/
def c8Store : V2.Store :=
  { users := [], portfolioInfo := [],
    experiences := [{ id := 1, otherFields := "Acme", order := 1, updatedAt := 0 }],
    experienceTechnologies := [],
    nextPortfolioInfoId := 1, nextTechId := 1, now := 0 }

/-- Experience payload used in the concrete updates. -/
def c8Data : V2.InsertExperience := { otherFields := "Acme", order := 1 }

/-- The store after updating experience 1 with technologies ["A", "B"]. -/
def c8Store1 : V2.Store := (V2.putExperience 1 c8Data (some ["A", "B"]) c8Store).2
theorem hexDigitVal_hexDigitChar (n : Nat) (h : n < 16) :
    hexDigitVal (hexDigitChar n) = some n := by
  interval_cases n <;> rfl

theorem hexDigitChar_ne_dot (n : Nat) (h : n < 16) :
    hexDigitChar n ≠ '.' := by
  interval_cases n <;> decide

theorem hexDecode_hexEncode (bs : List Nat) (h : ∀ b ∈ bs, b < 256) :
    hexDecode (hexEncode bs) = bs := by
  induction bs with
  | nil => rfl
  | cons b bs ih =>
    have hb : b < 256 := h b (List.mem_cons_self _ _)
    have h1 : b / 16 < 16 := by omega
    have h2 : b % 16 < 16 := by omega
    simp only [hexEncode, hexDecode, hexDigitVal_hexDigitChar _ h1,
      hexDigitVal_hexDigitChar _ h2]
    have hb16 : 16 * (b / 16) + b % 16 = b := by omega
    rw [hb16, ih (fun x hx => h x (List.mem_cons_of_mem _ hx))]

theorem length_hexDecode_hexEncode (bs : List Nat) (h : ∀ b ∈ bs, b < 256) :
    (hexDecode (hexEncode bs)).length = bs.length := by
  rw [hexDecode_hexEncode bs h]

theorem dot_not_mem_hexEncode (bs : List Nat) (h : ∀ b ∈ bs, b < 256) :
    ('.' : Char) ∉ hexEncode bs := by
  induction bs with
  | nil => simp [hexEncode]
  | cons b bs ih =>
    have hb : b < 256 := h b (List.mem_cons_self _ _)
    have h1 : b / 16 < 16 := by omega
    have h2 : b % 16 < 16 := by omega
    simp only [hexEncode, List.mem_cons, not_or]
    refine ⟨?_, ?_, ih (fun x hx => h x (List.mem_cons_of_mem _ hx))⟩
    · exact fun hc => hexDigitChar_ne_dot _ h1 hc.symm
    · exact fun hc => hexDigitChar_ne_dot _ h2 hc.symm

theorem splitOnChar_of_not_mem (sep : Char) (cs : List Char) (h : sep ∉ cs) :
    splitOnChar sep cs = [cs] := by
  induction cs with
  | nil => rfl
  | cons c rest ih =>
    have hc : c ≠ sep := fun hcs => h (hcs ▸ List.mem_cons_self _ _)
    have hrest : sep ∉ rest := fun hm => h (List.mem_cons_of_mem _ hm)
    simp [splitOnChar, ih hrest, hc]

theorem splitOnChar_append (sep : Char) (xs ys : List Char) (hx : sep ∉ xs) :
    splitOnChar sep (xs ++ sep :: ys) = xs :: splitOnChar sep ys := by
  induction xs with
  | nil =>
    simp only [List.nil_append, splitOnChar]
    match hok : splitOnChar sep ys with
    | [] => simp [hok]
    | g :: gs => simp [hok]
  | cons x xs ih =>
    have hx1 : x ≠ sep := fun hcs => hx (hcs ▸ List.mem_cons_self _ _)
    have hx2 : sep ∉ xs := fun hm => hx (List.mem_cons_of_mem _ hm)
    simp only [List.cons_append, splitOnChar, List.append_eq]
    rw [ih hx2]
    simp [hx1]


theorem list_map_eq_self {α : Type} (f : α → α) (l : List α)
    (h : ∀ a ∈ l, f a = a) : l.map f = l := by
  induction l with
  | nil => rfl
  | cons a l ih =>
    simp only [List.map_cons, h a (List.mem_cons_self _ _),
      ih (fun b hb => h b (List.mem_cons_of_mem _ hb))]

theorem getContactInfo_contactMessages (t : V1.Store) :
    ((V1.getContactInfo t).2).contactMessages = t.contactMessages := by
  rcases ht : t.contactInfo with _ | ⟨c, cs⟩ <;>
    simp [V1.getContactInfo, V1.createContactInfo, ht]

theorem postContact_eq (input : V1.InsertContactMessage) (er : V1.EmailResult)
    (s : V1.Store) :
    V1.postContact input er s =
      ({ status := 201, body := [("message", Jval.str "Message sent successfully")] },
       (V1.getContactInfo (V1.createContactMessage input s).2).2) := by
  unfold V1.postContact
  rcases he : ((V1.getContactInfo (V1.createContactMessage input s).2).1).email with _ | e
  · simp [he]
  · by_cases he2 : e = "" <;> rcases hs : er.success <;> simp [he, he2, hs]

/-- C1 (amended, variant 1): for every validated contact submission, after
the variant-1 `POST /api/contact` handler completes the store contains a
contact message carrying the four submitted fields with `read = false`, and
the handler answers 201, whatever the external email send reports. -/
theorem c1_contact_message_persisted (input : V1.InsertContactMessage)
    (emailResult : V1.EmailResult) (s : V1.Store) :
    (V1.postContact input emailResult s).1.status = 201
    ∧ ∃ m ∈ ((V1.postContact input emailResult s).2).contactMessages,
        m.name = input.name ∧ m.email = input.email ∧ m.subject = input.subject ∧
        m.message = input.message ∧ m.read = false := by
  rw [postContact_eq]
  refine ⟨rfl, ?_⟩
  rw [getContactInfo_contactMessages]
  refine ⟨{ id := s.nextMessageId, name := input.name, email := input.email,
            subject := input.subject, message := input.message,
            createdAt := s.now, read := false }, ?_, rfl, rfl, rfl, rfl, rfl⟩
  simp [V1.createContactMessage]

/-- C1 (counterexample): the variant-2 `POST /api/contact` handler, run on a
valid submission over a configured store, completes with 200 while leaving
the store exactly as it was — no contact-message row with the submitted
fields exists afterwards (this schema variant has no contact-message table
at all), contradicting the claim as stated for the cited variant-2
handler. -/
theorem c1_counterexample :
    V2.postContact sampleContactInput true v2SampleStore = (200, v2SampleStore) := by
  rfl

/-- C4 (amended): the variant-1 `checkAdmin` gate answers 401 with no
authenticated session, 403 for an authenticated non-admin, and passes an
admin through; the variant-2 `isAdmin` gate collapses the first two cases
and answers 403 both with no authenticated session and for a non-admin,
passing an admin through. -/
theorem c4_admin_gate (u : V1.User) (v : V2.User) :
    V1.checkAdmin none = GateResult.reject 401 "Not authenticated"
    ∧ (u.isAdmin = false → V1.checkAdmin (some u) = GateResult.reject 403 "Access denied")
    ∧ (u.isAdmin = true → V1.checkAdmin (some u) = GateResult.pass)
    ∧ V2.isAdmin none = GateResult.reject 403 "Unauthorized: Admin access required"
    ∧ (v.isAdmin = false → V2.isAdmin (some v) = GateResult.reject 403 "Unauthorized: Admin access required")
    ∧ (v.isAdmin = true → V2.isAdmin (some v) = GateResult.pass) := by
  refine ⟨rfl, ?_, ?_, rfl, ?_, ?_⟩ <;>
    intro h <;> simp [V1.checkAdmin, V2.isAdmin, h]

/-- C4 (witness): the gates evaluated on concrete users. -/
theorem c4_admin_gate_witness :
    V1.checkAdmin (some plainUser1) = GateResult.reject 403 "Access denied"
    ∧ V1.checkAdmin (some adminUser1) = GateResult.pass
    ∧ V2.isAdmin (some plainUser2) = GateResult.reject 403 "Unauthorized: Admin access required" :=
  ⟨(c4_admin_gate plainUser1 plainUser2).2.1 rfl,
   (c4_admin_gate adminUser1 plainUser2).2.2.1 rfl,
   (c4_admin_gate plainUser1 plainUser2).2.2.2.2.1 rfl⟩

/-- C4 (counterexample): a request with no valid authenticated session sent
through the variant-2 admin gate is rejected with status 403, not with the
401 the claim requires for every admin-guarded route. -/
theorem c4_counterexample :
    V2.isAdmin none = GateResult.reject 403 "Unauthorized: Admin access required" := by
  rfl

/-- C5 (amended): on an empty table the singleton reads for Hero, About and
ContactInfo lazily create and return the fully populated hard-coded default
row, and a second read returns that same row; the singleton reads for
SiteConfig and PortfolioInfo do NOT lazily create — on an empty table they
return nothing (SiteConfig is instead seeded once at route-registration
startup). -/
theorem c5_singleton_reads (s : V1.Store) (s2 : V2.Store) :
    (s.hero = [] →
      ((V1.getHero s).1.greeting = "Hello, I\x27m" ∧
       (V1.getHero s).1.name = "John Doe" ∧
       (V1.getHero s).1.tagline = "Full Stack Developer & UI/UX Designer") ∧
      ((V1.getHero s).2).hero = [(V1.getHero s).1] ∧
      V1.getHero ((V1.getHero s).2) = ((V1.getHero s).1, (V1.getHero s).2))
    ∧ (s.about = [] →
      ((V1.getAbout s).1.bio =
        "I\x27m a passionate developer with experience building web applications." ∧
       (V1.getAbout s).1.details ≠ none ∧ (V1.getAbout s).1.socialLinks ≠ none) ∧
      ((V1.getAbout s).2).about = [(V1.getAbout s).1] ∧
      V1.getAbout ((V1.getAbout s).2) = ((V1.getAbout s).1, (V1.getAbout s).2))
    ∧ (s.contactInfo = [] →
      ((V1.getContactInfo s).1.email = some "contact@example.com" ∧
       (V1.getContactInfo s).1.phone = some "(123) 456-7890" ∧
       (V1.getContactInfo s).1.socialLinks ≠ none) ∧
      ((V1.getContactInfo s).2).contactInfo = [(V1.getContactInfo s).1] ∧
      V1.getContactInfo ((V1.getContactInfo s).2) =
        ((V1.getContactInfo s).1, (V1.getContactInfo s).2))
    ∧ (s.siteConfig = [] → V1.getSiteConfig s = none)
    ∧ (s2.portfolioInfo = [] → V2.getPortfolioInfo s2 = none) := by
  refine ⟨?_, ?_, ?_, ?_, ?_⟩ <;> intro h
  · simp [V1.getHero, V1.createHero, h]
  · simp [V1.getAbout, V1.createAbout, V1.defaultAboutArgs, h]
  · simp [V1.getContactInfo, V1.createContactInfo, h]
  · simp [V1.getSiteConfig, h]
  · simp [V2.getPortfolioInfo, h]

/-- C5 (witness): the singleton reads evaluated on empty stores. -/
theorem c5_singleton_reads_witness :
    (V1.getHero emptyStore1).1.name = "John Doe"
    ∧ ((V1.getHero emptyStore1).2).hero = [(V1.getHero emptyStore1).1]
    ∧ V1.getSiteConfig emptyStore1 = none
    ∧ V2.getPortfolioInfo emptyStore2 = none :=
  ⟨((c5_singleton_reads emptyStore1 emptyStore2).1 rfl).1.2.1,
   ((c5_singleton_reads emptyStore1 emptyStore2).1 rfl).2.1,
   (c5_singleton_reads emptyStore1 emptyStore2).2.2.2.1 rfl,
   (c5_singleton_reads emptyStore1 emptyStore2).2.2.2.2 rfl⟩

/-- C5 (counterexample): on a completely empty store, the SiteConfig and
PortfolioInfo singleton reads return nothing instead of creating and
returning a fully populated default row, refuting the claim for two of the
five singleton kinds it names. -/
theorem c5_counterexample :
    V1.getSiteConfig emptyStore1 = none ∧ V2.getPortfolioInfo emptyStore2 = none :=
  ⟨rfl, rfl⟩

theorem updateHero_empty (hp : V1.PartialInsertHero) (s : V1.Store)
    (h : s.hero = []) :
    V1.updateHero hp s = Except.ok
      (let updated : V1.Hero :=
        { id := s.nextHeroId, greeting := hp.greeting.getD "Hello, I\x27m",
          name := hp.name.getD "John Doe",
          tagline := hp.tagline.getD "Full Stack Developer & UI/UX Designer",
          createdAt := s.now, updatedAt := s.now }
       (updated, { s with hero := [updated], nextHeroId := s.nextHeroId + 1 })) := by
  simp [V1.updateHero, V1.getHero, V1.createHero, h]

/-- C6 (amended): only the SiteConfig singleton update fails loudly on an
empty table; the Hero (and About/ContactInfo) update lazily creates the
default row through its own singleton read and then updates it, and the
variant-2 PortfolioInfo update upserts, inserting the supplied data when no
row exists. -/
theorem c6_singleton_updates (p : V1.PartialInsertSiteConfig)
    (hp : V1.PartialInsertHero) (ip : V2.InsertPortfolioInfo)
    (s : V1.Store) (s2 : V2.Store) :
    (s.siteConfig = [] →
      V1.updateSiteConfig p s = Except.error "Site configuration not found")
    ∧ (s.hero = [] → ∃ r, V1.updateHero hp s = Except.ok r ∧ r.2.hero = [r.1])
    ∧ (s2.portfolioInfo = [] →
      ((V2.updatePortfolioInfo ip s2).2).portfolioInfo = [(V2.updatePortfolioInfo ip s2).1]) := by
  refine ⟨?_, ?_, ?_⟩ <;> intro h
  · simp [V1.updateSiteConfig, h]
  · rw [updateHero_empty hp s h]
    exact ⟨_, rfl, rfl⟩
  · simp [V2.updatePortfolioInfo, V2.getPortfolioInfo, h]

/-- C6 (witness): the singleton updates evaluated on empty stores. -/
theorem c6_singleton_updates_witness :
    V1.updateSiteConfig sitePatch0 emptyStore1 = Except.error "Site configuration not found"
    ∧ ((V2.updatePortfolioInfo portfolioInsert0 emptyStore2).2).portfolioInfo
        = [(V2.updatePortfolioInfo portfolioInsert0 emptyStore2).1] :=
  ⟨(c6_singleton_updates sitePatch0 heroPatch0 portfolioInsert0 emptyStore1 emptyStore2).1 rfl,
   (c6_singleton_updates sitePatch0 heroPatch0 portfolioInsert0 emptyStore1 emptyStore2).2.2 rfl⟩

/-- C6 (counterexample): the Hero singleton update on an empty hero table
does not raise a not-found error — it succeeds, and it lazily creates a row
(the table goes from empty to one row), refuting both halves of the claim
for the Hero kind. -/
theorem c6_counterexample :
    (V1.updateHero heroPatch0 emptyStore1).isOk = true
    ∧ ((V1.updateHero heroPatch0 emptyStore1).toOption.map
        (fun r => r.2.hero.length)) = some 1 := by
  constructor <;> rfl

/-- C9: the public `GET /api/site-config` response never carries a
`setupKey` field, and two stores that differ only in the stored setup key
produce literally identical responses — the setup key never reaches
clients through this endpoint. -/
theorem c9_setup_key_never_exposed (s : V1.Store) (k : String) :
    "setupKey" ∉ (V1.getSiteConfigRoute s).body.map Prod.fst
    ∧ V1.getSiteConfigRoute (setStoredSetupKey k s) = V1.getSiteConfigRoute s := by
  constructor
  · rcases hc : s.siteConfig with _ | ⟨c, cs⟩ <;>
      simp [V1.getSiteConfigRoute, V1.getSiteConfig, V1.siteConfigJson, hc]
  · rcases hc : s.siteConfig with _ | ⟨c, cs⟩ <;>
      simp [V1.getSiteConfigRoute, V1.getSiteConfig, setStoredSetupKey,
        V1.siteConfigJson, hc]

/-- C10: `markContactMessageAsRead` only ever flips the `read` field of the
rows whose id matches, position by position: lengths are preserved, every
field except `read` is untouched, every other message is untouched, the
rest of the store is untouched; when no message carries the id, the call
returns nothing and the whole store is unchanged; and the returned message,
when present, is a stored message with the id whose `read` flag is now
true. -/
theorem c10_mark_read_frame (id : Nat) (s : V1.Store) :
    ((V1.markContactMessageAsRead id s).2).contactMessages.length
        = s.contactMessages.length
    ∧ (∀ i m m2, s.contactMessages.get? i = some m →
        ((V1.markContactMessageAsRead id s).2).contactMessages.get? i = some m2 →
        m2.id = m.id ∧ m2.name = m.name ∧ m2.email = m.email ∧
        m2.subject = m.subject ∧ m2.message = m.message ∧
        m2.createdAt = m.createdAt ∧
        (m.id = id → m2.read = true) ∧ (m.id ≠ id → m2.read = m.read))
    ∧ (((V1.markContactMessageAsRead id s).2).users = s.users ∧
       ((V1.markContactMessageAsRead id s).2).siteConfig = s.siteConfig ∧
       ((V1.markContactMessageAsRead id s).2).hero = s.hero ∧
       ((V1.markContactMessageAsRead id s).2).about = s.about ∧
       ((V1.markContactMessageAsRead id s).2).contactInfo = s.contactInfo)
    ∧ ((∀ m ∈ s.contactMessages, m.id ≠ id) →
        V1.markContactMessageAsRead id s = (none, s))
    ∧ (∀ m, (V1.markContactMessageAsRead id s).1 = some m →
        m.read = true ∧
        ∃ m0 ∈ s.contactMessages, m0.id = id ∧ m = { m0 with read := true }) := by
  refine ⟨by simp [V1.markContactMessageAsRead], ?_, ⟨rfl, rfl, rfl, rfl, rfl⟩, ?_, ?_⟩
  · intro i m m2 hm hm2
    have hmm : ((s.contactMessages.map
        (fun x => if x.id = id then { x with read := true } else x)).get? i) = some m2 := hm2
    rw [List.get?_map, hm] at hmm
    simp only [Option.map_some'] at hmm
    rcases Option.some.inj hmm with rfl
    by_cases hid : m.id = id <;> simp [hid]
  · intro hall
    unfold V1.markContactMessageAsRead
    have hmap : s.contactMessages.map
        (fun m => if m.id = id then { m with read := true } else m) = s.contactMessages :=
      list_map_eq_self _ _ (fun m hm => by simp [hall m hm])
    rw [hmap]
    have hfind : s.contactMessages.find? (fun m => m.id = id) = none :=
      List.find?_eq_none.mpr (fun m hm => by simp [hall m hm])
    simp [hfind]
  · intro m hm
    unfold V1.markContactMessageAsRead at hm
    simp only at hm
    have hp := List.find?_some hm
    have hmem := List.mem_of_find?_eq_some hm
    rcases List.mem_map.mp hmem with ⟨m0, hm0, hfm0⟩
    by_cases hid : m0.id = id
    · rw [if_pos hid] at hfm0
      refine ⟨?_, m0, hm0, hid, hfm0.symm⟩
      rw [← hfm0]
    · rw [if_neg hid] at hfm0
      subst hfm0
      simp at hp
      exact absurd hp hid

/-- C10 (witness): on a concrete store with two unread messages, marking
message 1 returns that message with `read` now true while a miss on id 99
returns nothing and leaves the store untouched. -/
theorem c10_mark_read_frame_witness :
    (({ c10MsgA with read := true } : V1.ContactMessage).read = true
      ∧ ∃ m0 ∈ c10Store.contactMessages, m0.id = 1 ∧
          ({ c10MsgA with read := true } : V1.ContactMessage) = { m0 with read := true })
    ∧ V1.markContactMessageAsRead 99 c10Store = (none, c10Store) :=
  ⟨(c10_mark_read_frame 1 c10Store).2.2.2.2 { c10MsgA with read := true } rfl,
   (c10_mark_read_frame 99 c10Store).2.2.2.1 (by decide)⟩

/-- C2: the register handler admits an admin registration only when the
site config exists and the supplied setup key is truthy and equal to the
stored one (any differing key is rejected); it admits a non-admin
registration only when some admin already exists; consequently on a fresh
deployment with no users the first account can only be created as an admin
with the correct setup key. -/
theorem c2_register_guard (hash : String → String) (req : V1.RegisterRequest)
    (s : V1.Store) :
    (req.isAdmin = true →
      (∀ u, (V1.registerRoute hash req s).1 = V1.RegisterResult.created u →
        ∃ config, V1.getSiteConfig s = some config ∧
          req.setupKey = some config.setupKey ∧ config.setupKey ≠ "") ∧
      (∀ config, V1.getSiteConfig s = some config →
        req.setupKey ≠ some config.setupKey →
        ∀ u, (V1.registerRoute hash req s).1 ≠ V1.RegisterResult.created u))
    ∧ (req.isAdmin = false →
      ∀ u, (V1.registerRoute hash req s).1 = V1.RegisterResult.created u →
        V1.checkAdminExists s = true)
    ∧ (s.users = [] → req.isAdmin = false →
      ∀ u, (V1.registerRoute hash req s).1 ≠ V1.RegisterResult.created u) := by
  unfold V1.registerRoute
  by_cases h1 : (V1.getUserByUsername req.username s).isSome
  · simp [h1]
  by_cases h2 : (V1.getUserByEmail req.email s).isSome
  · simp [h1, h2]
  refine ⟨?_, ?_, ?_⟩
  · intro hadm
    rcases hc : V1.getSiteConfig s with _ | config
    · constructor
      · intro u hu
        simp [h1, h2, hadm] at hu
      · intro config hcfg
        simp at hcfg
    · constructor
      · intro u hu
        rcases hk : req.setupKey with _ | k
        · simp [h1, h2, hadm, hk] at hu
        · by_cases hke : k = "" ∨ k ≠ config.setupKey
          · simp [h1, h2, hadm, hk, hke] at hu
          · push_neg at hke
            exact ⟨config, rfl, by rw [hke.2], by rw [← hke.2]; exact hke.1⟩
      · intro config2 hcfg hne u hu
        have hset : config2.setupKey = config.setupKey := by
          rcases Option.some.inj hcfg with h
          rw [h]
        rcases hk : req.setupKey with _ | k
        · simp [h1, h2, hadm, hk] at hu
        · have hkne : ¬ k = config.setupKey := fun hkk => hne (by rw [hk, hkk, hset])
          simp [h1, h2, hadm, hk, hkne] at hu
  · intro hadm u hu
    by_cases h3 : V1.checkAdminExists s
    · exact h3
    · simp [h1, h2, hadm, h3] at hu
  · intro husers hadm u hu
    have h3 : V1.checkAdminExists s = false := by
      simp [V1.checkAdminExists, husers]
    simp [h1, h2, hadm, h3] at hu

/-- C2 (witness): on a fresh store a concrete non-admin registration is
refused, while the concrete admin registration with the stored key is
accepted — discharging the guard theorem at concrete inputs. -/
theorem c2_register_guard_witness :
    (V1.registerRoute (fun p => p) c2NonAdminReq c2FreshStore).1
        ≠ V1.RegisterResult.created c2SomeUser
    ∧ ∃ config, V1.getSiteConfig c2FreshStore = some config ∧
        c2AdminReq.setupKey = some config.setupKey ∧ config.setupKey ≠ "" :=
  ⟨(c2_register_guard (fun p => p) c2NonAdminReq c2FreshStore).2.2 rfl rfl c2SomeUser,
   ((c2_register_guard (fun p => p) c2AdminReq c2FreshStore).1 rfl).1 c2CreatedUser (by decide)⟩

theorem createExperienceTechnologiesLoop_spec (experienceId : Nat) (names : List String) :
    ∀ s : V2.Store,
      (V2.createExperienceTechnologiesLoop experienceId names s).experienceTechnologies
        = s.experienceTechnologies ++ freshTechRows experienceId s.nextTechId names := by
  induction names with
  | nil => intro s; simp [V2.createExperienceTechnologiesLoop, freshTechRows]
  | cons n ns ih =>
    intro s
    have hstep : V2.createExperienceTechnologiesLoop experienceId (n :: ns) s
        = V2.createExperienceTechnologiesLoop experienceId ns
            ((V2.createExperienceTechnology experienceId n s).2) := rfl
    rw [hstep, ih]
    simp [V2.createExperienceTechnology, freshTechRows]

theorem freshTechRows_names (experienceId : Nat) (names : List String) :
    ∀ base, (freshTechRows experienceId base names).map (fun t => t.name) = names := by
  induction names with
  | nil => intro base; rfl
  | cons n ns ih => intro base; simp [freshTechRows, ih]

theorem freshTechRows_experienceId (experienceId : Nat) (names : List String) :
    ∀ base t, t ∈ freshTechRows experienceId base names → t.experienceId = experienceId := by
  induction names with
  | nil =>
    intro base t ht
    simp [freshTechRows] at ht
  | cons n ns ih =>
    intro base t ht
    simp only [freshTechRows] at ht
    rcases List.mem_cons.mp ht with h | h
    · rw [h]
    · exact ih (base + 1) t h

/-- C8: when the variant-2 `PUT /api/experiences/:id` handler runs on an
existing experience with a supplied technology list, the technology child
rows of that experience afterwards are exactly the supplied names (all
previous rows are deleted and the list reinserted), and the technology rows
of every other experience are left untouched. -/
theorem c8_technology_replacement (id : Nat) (data : V2.InsertExperience)
    (techs : List String) (s : V2.Store)
    (hex : ∃ x ∈ s.experiences, x.id = id) :
    ((((V2.putExperience id data (some techs) s).2).experienceTechnologies.filter
        (fun t => t.experienceId = id)).map (fun t => t.name) = techs)
    ∧ (((V2.putExperience id data (some techs) s).2).experienceTechnologies.filter
        (fun t => ¬ t.experienceId = id))
      = s.experienceTechnologies.filter (fun t => ¬ t.experienceId = id) := by
  have hupd : ((V2.updateExperience id data s).1).isSome := by
    rcases hex with ⟨x, hx, hxid⟩
    simp only [V2.updateExperience, List.find?_isSome]
    exact ⟨_, List.mem_map_of_mem _ hx, by simp [hxid]⟩
  rcases Option.isSome_iff_exists.mp hupd with ⟨e, he⟩
  have hput : (V2.putExperience id data (some techs) s).2
      = V2.createExperienceTechnologiesLoop id techs
          (V2.deleteExperienceTechnologiesByExperienceId id
            (V2.updateExperience id data s).2) := by
    simp [V2.putExperience, he]
  rw [hput, createExperienceTechnologiesLoop_spec]
  have hdel : (V2.deleteExperienceTechnologiesByExperienceId id
      (V2.updateExperience id data s).2).experienceTechnologies
      = s.experienceTechnologies.filter (fun t => ¬ t.experienceId = id) := by
    simp [V2.deleteExperienceTechnologiesByExperienceId, V2.updateExperience]
  have hnext : (V2.deleteExperienceTechnologiesByExperienceId id
      (V2.updateExperience id data s).2).nextTechId = s.nextTechId := rfl
  rw [hdel, hnext]
  have hfresh1 : (freshTechRows id s.nextTechId techs).filter
      (fun t => t.experienceId = id) = freshTechRows id s.nextTechId techs :=
    List.filter_eq_self.mpr (fun t ht => by
      simp [freshTechRows_experienceId id techs s.nextTechId t ht])
  have hfresh2 : (freshTechRows id s.nextTechId techs).filter
      (fun t => ¬ t.experienceId = id) = [] := by
    rw [List.filter_eq_nil_iff]
    intro t ht
    simp [freshTechRows_experienceId id techs s.nextTechId t ht]
  have hstale1 : (s.experienceTechnologies.filter (fun t => ¬ t.experienceId = id)).filter
      (fun t => t.experienceId = id) = [] := by
    rw [List.filter_eq_nil_iff]
    intro t ht
    have := List.of_mem_filter ht
    simp at this
    simp [this]
  have hstale2 : (s.experienceTechnologies.filter (fun t => ¬ t.experienceId = id)).filter
      (fun t => ¬ t.experienceId = id)
      = s.experienceTechnologies.filter (fun t => ¬ t.experienceId = id) :=
    List.filter_eq_self.mpr (fun t ht => (List.mem_filter.mp ht).2)
  constructor
  · rw [List.filter_append, hfresh1, hstale1, List.nil_append,
      freshTechRows_names id techs s.nextTechId]
  · rw [List.filter_append, hfresh2, hstale2, List.append_nil]

/-- C8 (witness): updating experience 1 of a concrete store first with
technologies ["A", "B"] and then with ["C"] leaves exactly ["C"] as the
technology child rows of that experience. -/
theorem c8_technology_replacement_witness :
    ((((V2.putExperience 1 c8Data (some ["C"]) c8Store1).2).experienceTechnologies.filter
        (fun t => t.experienceId = 1)).map (fun t => t.name) = ["C"]) :=
  (c8_technology_replacement 1 c8Data ["C"] c8Store1 (by decide)).1

theorem splitOnChar_hashPassword (kdf : Kdf) (salt p : JStr)
    (hsalt : ('.' : Char) ∉ salt)
    (hbyte : ∀ b ∈ kdf p salt, b < 256) :
    splitOnChar '.' (hashPassword kdf salt p) = [hexEncode (kdf p salt), salt] := by
  unfold hashPassword
  rw [splitOnChar_append _ _ _ (dot_not_mem_hexEncode _ hbyte),
    splitOnChar_of_not_mem _ _ hsalt]

/-- C3: for every password the stored form produced by `hashPassword`
verifies against the same password and is literally
`derivedKeyHex ++ "." ++ salt`; a second password whose derived key differs
(guaranteed by the collision resistance of scrypt for any other password) is
rejected with the boolean false.  The hypotheses say only that the salt is
a dot-free (hex) string and that the external scrypt returns 64 bytes. -/
theorem c3_hash_verify_roundtrip (kdf : Kdf) (salt p p2 : JStr)
    (hsalt : ('.' : Char) ∉ salt)
    (hlen : ∀ q, (kdf q salt).length = 64)
    (hbyte : ∀ q, ∀ b ∈ kdf q salt, b < 256) :
    comparePasswords kdf p (hashPassword kdf salt p) = Except.ok true
    ∧ (kdf p2 salt ≠ kdf p salt →
        comparePasswords kdf p2 (hashPassword kdf salt p) = Except.ok false)
    ∧ hashPassword kdf salt p = hexEncode (kdf p salt) ++ '.' :: salt := by
  have hsplit := splitOnChar_hashPassword kdf salt p hsalt (hbyte p)
  have hdec : hexDecode (hexEncode (kdf p salt)) = kdf p salt :=
    hexDecode_hexEncode _ (hbyte p)
  refine ⟨?_, ?_, rfl⟩
  · unfold comparePasswords
    rw [hsplit]
    simp only [hdec, hlen p]
    simp
  · intro hne
    unfold comparePasswords
    rw [hsplit]
    simp only [hdec, hlen p, hlen p2]
    simp [Ne.symm hne]

/-- C3 (witness): the parametric round-trip discharged with a concrete
64-byte key-derivation function, a concrete salt and the passwords "pw"
and "pwd". -/
theorem c3_hash_verify_roundtrip_witness :
    comparePasswords kdfDemo ("pw".data) (hashPassword kdfDemo c3Salt ("pw".data))
        = Except.ok true
    ∧ comparePasswords kdfDemo ("pwd".data) (hashPassword kdfDemo c3Salt ("pw".data))
        = Except.ok false := by
  have h := c3_hash_verify_roundtrip kdfDemo c3Salt ("pw".data) ("pwd".data)
    (by decide)
    (fun q => by simp [kdfDemo])
    (fun q b hb => by
      rcases List.mem_cons.mp hb with h1 | h1
      · rw [h1]
        exact Nat.mod_lt _ (by omega)
      · rw [List.eq_of_mem_replicate h1]
        omega)
  exact ⟨h.1, h.2.1 (by decide)⟩

/-- C7 (amended): `comparePasswords` returns the boolean false when the
stored form parses (it contains a dot) and the decoded derived-key part has
the derived length but a different value; on malformed stored forms it does
NOT return false — a stored form with no dot makes the scrypt call throw on
the undefined salt, and a derived-key part whose decoded byte length
differs from the fresh key (wrong length, non-hex, or truncated content)
makes the constant-time comparison throw. -/
theorem c7_verify_malformed (kdf : Kdf) (supplied stored hashed salt : JStr)
    (rest : List JStr) :
    (('.' : Char) ∉ stored →
      comparePasswords kdf supplied stored
        = Except.error "TypeError: the salt argument is undefined")
    ∧ (splitOnChar '.' stored = hashed :: salt :: rest →
        ((hexDecode hashed).length ≠ (kdf supplied salt).length →
          comparePasswords kdf supplied stored
            = Except.error "RangeError: input buffers must have the same byte length")
        ∧ ((hexDecode hashed).length = (kdf supplied salt).length →
          hexDecode hashed ≠ kdf supplied salt →
          comparePasswords kdf supplied stored = Except.ok false)) := by
  constructor
  · intro hdot
    unfold comparePasswords
    rw [splitOnChar_of_not_mem _ _ hdot]
  · intro hsplit
    constructor
    · intro hlen
      unfold comparePasswords
      rw [hsplit]
      simp [hlen]
    · intro hlen hne
      unfold comparePasswords
      rw [hsplit]
      simp [hlen, hne]

/-- C7 (witness): the malformed branches discharged at concrete inputs — a
dotless stored form throws on the undefined salt, and a stored form whose
derived-key part decodes to a single byte throws in the length check. -/
theorem c7_verify_malformed_witness :
    comparePasswords kdfDemo ("password".data) ("deadbeef".data)
        = Except.error "TypeError: the salt argument is undefined"
    ∧ comparePasswords kdfDemo ("password".data) ("ab.cd".data)
        = Except.error "RangeError: input buffers must have the same byte length" :=
  ⟨(c7_verify_malformed kdfDemo ("password".data) ("deadbeef".data)
      ("deadbeef".data) [] []).1 (by decide),
   ((c7_verify_malformed kdfDemo ("password".data) ("ab.cd".data)
      ['a', 'b'] ['c', 'd'] []).2 (by decide)).1 (by decide)⟩

/-- C7 (counterexample): on the malformed stored form "deadbeef" (no dot
separator) `comparePasswords` does not return the boolean false for the
non-matching pair — it throws, refuting the claim that verify returns
false on any mismatch including malformed stored forms. -/
theorem c7_counterexample :
    comparePasswords kdfDemo ("password".data) ("deadbeef".data) ≠ Except.ok false := by
  have he : comparePasswords kdfDemo ("password".data) ("deadbeef".data)
      = Except.error "TypeError: the salt argument is undefined" := rfl
  intro h
  rw [he] at h
  exact Except.noConfusion h
